import Mathlib

/-!
Shallow embedding of the core of the in-home nursing service backend:
the JWT middleware (middleware/auth.js), the login routes, and the
service-request lifecycle routes (routes/serviceRequests.js).

Modelling conventions:
* Mongo documents become Lean structures; a collection is a `List` of
  documents, in insertion order, and `_id` is a `Nat` field `id`.
* `Model.findOne(filter)` becomes `List.find?` with the filter as a
  Boolean predicate (first matching document, as Mongo returns).
* `Model.findOneAndUpdate(filter, update, {new:true})` becomes
  `findOneAndUpdate`, which rewrites the first matching document in
  place and returns the updated document.
* `doc.save()` after mutating a fetched document becomes `saveDoc`,
  which writes the document back over the first document carrying the
  same `_id` (Mongo `_id` is a unique key).
* HTTP statuses are the literal `Nat` codes the handlers send.
* The JWT compact string is abstracted: a `Jwt` value keeps the signed
  claims and the secret the signature was made with; signature checking
  compares secrets, expiry checking compares `exp` with the clock.
-/

namespace Ap

/-- A ServiceRequest document.  Fields are those of the
models/ServiceRequest.js schema (`user_id`, `nurse_id`, `estado` with
default "pendiente", `detalles`, `tarifa`, `pago_realizado` with default
false) together with the fields the routes/serviceRequests.js handlers
store on the document (`patient_ids`, `pago_liberado`,
`documentacion_servicio`, `observaciones`, `recomendaciones`), whose
schema revision is not part of the sources. -/
structure ServiceRequest where
  id : Nat
  user_id : Nat
  nurse_id : Nat
  patient_ids : List Nat
  detalles : String
  tarifa : Int
  estado : String
  pago_realizado : Bool
  pago_liberado : Bool
  documentacion_servicio : Option String
  observaciones : Option String
  recomendaciones : Option String
  deriving Repr, DecidableEq

/-- A patient document (models/Patient.js): its owner is `usuario_id`. -/
structure Patient where
  id : Nat
  usuario_id : Nat
  deriving Repr, DecidableEq

/-- A transaction document (models/Transaction.js as read by
routes/transactions.js). -/
structure Transaction where
  id : Nat
  service_request_id : Nat
  nurse_id : Nat
  user_id : Nat
  monto : Int
  deriving Repr, DecidableEq

/-- A chat message document (routes/messages.js). -/
structure Message where
  service_request_id : Nat
  sender_id : Nat
  receiver_id : Nat
  content : String
  deriving Repr, DecidableEq

/-- A user credential record (models/User.js). -/
structure UserRec where
  id : Nat
  user_name : String
  password : String
  deriving Repr, DecidableEq

/-- A nurse credential record (models/Nurse.js). -/
structure NurseRec where
  id : Nat
  user_name : String
  password : String
  deriving Repr, DecidableEq

/-- `Model.findOneAndUpdate(filter, update, {new:true})`: rewrite the
first document satisfying `p` by `f`, returning the updated document
(`new:true`) and the updated collection. -/
def findOneAndUpdate (p : ServiceRequest → Bool) (f : ServiceRequest → ServiceRequest) :
    List ServiceRequest → Option ServiceRequest × List ServiceRequest
  | [] => (none, [])
  | r :: rest =>
    if p r then (some (f r), f r :: rest)
    else ((findOneAndUpdate p f rest).1, r :: (findOneAndUpdate p f rest).2)

/-- `doc.save()`: write `d` back over the first document with the same
`_id` (unique key in Mongo). -/
def saveDoc : List ServiceRequest → ServiceRequest → List ServiceRequest
  | [], _ => []
  | r :: rest, d => if r.id = d.id then d :: rest else r :: saveDoc rest d

/-- `PUT /service-requests/:id` (accept/reject, the first-registered and
hence dispatched handler): reject the body unless `estado` is
"aceptada" or "rechazada" (400); otherwise
`findOneAndUpdate({_id, nurse_id}, {estado}, {new:true})` — note the
filter carries no `estado: 'pendiente'` clause — answering 404 when no
document matches and 200 otherwise. -/
def updateServiceRequest (store : List ServiceRequest) (reqId nurseId : Nat)
    (estado : String) : Nat × List ServiceRequest :=
  if estado == "aceptada" || estado == "rechazada" then
    match findOneAndUpdate (fun r => r.id == reqId && r.nurse_id == nurseId)
        (fun r => { r with estado := estado }) store with
    | (none, _) => (404, store)
    | (some _, store2) => (200, store2)
  else (400, store)

/-- `PUT /service-requests/:id/pagar`: `findOne({_id, user_id,
pago_realizado: false})` — no `estado` clause — answering 403 when no
document matches, else setting `pago_realizado = true` and saving. -/
def pagarServiceRequest (store : List ServiceRequest) (reqId userId : Nat) :
    Nat × List ServiceRequest :=
  match store.find? (fun r => r.id == reqId && r.user_id == userId &&
      r.pago_realizado == false) with
  | none => (403, store)
  | some r => (200, saveDoc store { r with pago_realizado := true })

/-- `PUT /service-requests/:id/pagar` seen over the whole application
state: the handler reads and writes only the ServiceRequest collection
and never touches the Transaction collection. -/
def pagarApp (store : List ServiceRequest) (txs : List Transaction)
    (reqId userId : Nat) : Nat × List ServiceRequest × List Transaction :=
  ((pagarServiceRequest store reqId userId).1,
   (pagarServiceRequest store reqId userId).2, txs)

/-- `PUT /service-requests/:id/completar`: `findOne({_id, nurse_id,
estado: 'pendiente'})` — the guard in the source is `estado ==
'pendiente'`, not `'aceptada'` — answering 403 when no document
matches, else setting `estado = 'completado'`, storing the service
documentation and `pago_liberado = true`, and saving. -/
def completarServiceRequest (store : List ServiceRequest) (reqId nurseId : Nat)
    (documentacion : String) : Nat × List ServiceRequest :=
  match store.find? (fun r => r.id == reqId && r.nurse_id == nurseId &&
      r.estado == "pendiente") with
  | none => (403, store)
  | some r =>
    (200, saveDoc store { r with
      estado := "completado",
      documentacion_servicio := some documentacion,
      pago_liberado := true })

/-- `PUT /service-requests/:id/reporte`: `findOne({_id, nurse_id,
estado: 'completado'})`, answering 403 when no document matches, else
storing observations and recommendations and saving. -/
def reporteServiceRequest (store : List ServiceRequest) (reqId nurseId : Nat)
    (obs rec : String) : Nat × List ServiceRequest :=
  match store.find? (fun r => r.id == reqId && r.nurse_id == nurseId &&
      r.estado == "completado") with
  | none => (403, store)
  | some r =>
    (200, saveDoc store { r with
      observaciones := some obs,
      recomendaciones := some rec })

/-- `POST /service-requests` (the first-registered and hence dispatched
handler): build the new document from the body and the authenticated
`user_id`, with the schema defaults `estado = "pendiente"`,
`pago_realizado = false`, save it and answer 201.  This handler performs
no patient-ownership query; the second-registered handler for the same
route (which does query Patient) is unreachable under Express
first-match dispatch. -/
def createServiceRequest (store : List ServiceRequest) (newId userId nurseId : Nat)
    (patient_ids : List Nat) (detalles : String) (tarifa : Int) :
    Nat × ServiceRequest × List ServiceRequest :=
  let r : ServiceRequest :=
    { id := newId, user_id := userId, nurse_id := nurseId,
      patient_ids := patient_ids, detalles := detalles, tarifa := tarifa,
      estado := "pendiente", pago_realizado := false, pago_liberado := false,
      documentacion_servicio := none, observaciones := none,
      recomendaciones := none }
  (201, r, store ++ [r])

/-- The patient-ownership check of the second-registered (shadowed)
`POST /service-requests` handler: `Patient.find({_id: {$in:
patient_ids}, usuario_id}).length === patient_ids.length`. -/
def ownsAllPatients (patients : List Patient) (patient_ids : List Nat)
    (userId : Nat) : Bool :=
  (patients.filter (fun p =>
    patient_ids.contains p.id && p.usuario_id == userId)).length ==
    patient_ids.length

/-- `POST /messages`: `ServiceRequest.findOne({_id, $or: [{user_id},
{nurse_id}]})`, answering 403 when the caller participates in no such
request, else saving the message and answering 201. -/
def sendMessage (requests : List ServiceRequest) (messages : List Message)
    (userId serviceRequestId receiverId : Nat) (content : String) :
    Nat × List Message :=
  match requests.find? (fun r => r.id == serviceRequestId &&
      (r.user_id == userId || r.nurse_id == userId)) with
  | none => (403, messages)
  | some _ =>
    let m : Message :=
      { service_request_id := serviceRequestId, sender_id := userId,
        receiver_id := receiverId, content := content }
    (201, messages ++ [m])

/-- The claims object the login routes sign: `{userId: user._id, role}`. -/
structure LoginClaims where
  userId : Nat
  role : String
  deriving Repr, DecidableEq

/-- The registered JWT claims `jwt.sign({userId}, secret, {expiresIn})`
produces: the `userId` claim (of the caller-chosen shape), issued-at and
expiry timestamps in seconds. -/
structure JwtPayload (α : Type) where
  userId : α
  iat : Nat
  exp : Nat
  deriving Repr, DecidableEq

/-- An abstract signed token: the claims plus the secret the signature
was produced with (an HMAC is determined by payload and secret, so
keeping the secret models the signature). -/
structure Jwt (α : Type) where
  payload : JwtPayload α
  sig : String
  deriving Repr, DecidableEq

/-- The signing secret: middleware/auth.js passes the inline string
literal to both `jwt.sign` and `jwt.verify`. -/
def jwtSecret : String := "tu_secreto_jwt"

/-- The secret the middleware ends up using, as a function of whatever
external configuration the process was started with: the source reads no
environment variable or configuration file, so the result is the inline
literal whatever the argument. -/
def secretFromConfig (externalConfig : Option String) : String :=
  match externalConfig with
  | _ => "tu_secreto_jwt"

/-- `generateToken(userId)`: `jwt.sign({ userId }, 'tu_secreto_jwt',
{ expiresIn: '1h' })` — one hour is 3600 seconds. -/
def generateToken {α : Type} (userId : α) (now : Nat) : Jwt α :=
  { payload := { userId := userId, iat := now, exp := now + 3600 },
    sig := jwtSecret }

/-- Outcome of `jwt.verify`: the decoded claims, or the
TokenExpiredError / JsonWebTokenError failures. -/
inductive VerifyResult (α : Type) where
  | ok (payload : JwtPayload α)
  | expired
  | invalidSignature
  deriving Repr, DecidableEq

/-- `jwt.verify(token, secret)`: reject on any signature mismatch,
reject with TokenExpiredError when the clock has reached `exp`, else
return the claims. -/
def jwtVerify {α : Type} (t : Jwt α) (secret : String) (now : Nat) :
    VerifyResult α :=
  if t.sig ≠ secret then VerifyResult.invalidSignature
  else if t.payload.exp ≤ now then VerifyResult.expired
  else VerifyResult.ok t.payload

/-- `req.headers['authorization'] && req.headers['authorization']
.split(' ')[1]`: the header is modelled as its list of space-separated
words; the token is the second word, and a missing or empty second word
leaves the token falsy. -/
def extractToken (authHeader : Option (List String)) : Option String :=
  match authHeader with
  | none => none
  | some ws =>
    match ws.get? 1 with
    | none => none
    | some t => if t = "" then none else some t

/-- What the middleware does with the request: pass it on with the
authenticated identity attached (`req.userId = user.userId; next()`), or
short-circuit with `res.sendStatus(code)`. -/
inductive AuthOutcome (α : Type) where
  | next (userId : α)
  | sendStatus (code : Nat)
  deriving Repr, DecidableEq

/-- `authenticateToken(req, res, next)`: 401 when no token could be
extracted from the Authorization header; otherwise decode the compact
string (`decodeTok` abstracts the base64/JSON parse, `none` standing for
an unparseable token) and `jwt.verify` it — on any verification error
the middleware answers 403 (`res.sendStatus(403)`), and only on success
does it attach `user.userId` and continue. -/
def authenticateToken {α : Type} (authHeader : Option (List String))
    (decodeTok : String → Option (Jwt α)) (now : Nat) : AuthOutcome α :=
  match extractToken authHeader with
  | none => AuthOutcome.sendStatus 401
  | some s =>
    match decodeTok s with
    | none => AuthOutcome.sendStatus 403
    | some t =>
      match jwtVerify t jwtSecret now with
      | VerifyResult.ok p => AuthOutcome.next p.userId
      | _ => AuthOutcome.sendStatus 403

/-- `POST /users/login`: `User.findOne({ user_name, password })` — exact
equality on both stored fields; 401 when nothing matches, else a token
signed over `{userId: user._id, role: 'usuario'}`. -/
def loginUser (users : List UserRec) (userName pw : String) (now : Nat) :
    Nat × Option (Jwt LoginClaims) :=
  match users.find? (fun u => u.user_name == userName && u.password == pw) with
  | none => (401, none)
  | some u => (200, some (generateToken { userId := u.id, role := "usuario" } now))

/-- `POST /nurses/login`: `Nurse.findOne({ user_name, password })` —
exact equality on both stored fields; 401 when nothing matches, else a
token signed over `{userId: nurse._id, role: 'enfermero'}`. -/
def loginNurse (nurses : List NurseRec) (userName pw : String) (now : Nat) :
    Nat × Option (Jwt LoginClaims) :=
  match nurses.find? (fun n => n.user_name == userName && n.password == pw) with
  | none => (401, none)
  | some n => (200, some (generateToken { userId := n.id, role := "enfermero" } now))

/-- The party identifiers of every document, in collection order: used
to state that the lifecycle operations never rewrite `user_id` or
`nurse_id`. -/
def partyView (store : List ServiceRequest) : List (Nat × Nat × Nat) :=
  store.map (fun r => (r.id, r.user_id, r.nurse_id))

/-- A sample pending request: client 7, nurse 5, patient 2. -/
def sreqPending : ServiceRequest :=
  { id := 1, user_id := 7, nurse_id := 5, patient_ids := [2],
    detalles := "cuidado", tarifa := 50, estado := "pendiente",
    pago_realizado := false, pago_liberado := false,
    documentacion_servicio := none, observaciones := none,
    recomendaciones := none }

/-- The sample request after the nurse accepted it. -/
def sreqAceptada : ServiceRequest := { sreqPending with estado := "aceptada" }

theorem findOneAndUpdate_fst_isSome_iff (p : ServiceRequest → Bool)
    (f : ServiceRequest → ServiceRequest) (store : List ServiceRequest) :
    ((findOneAndUpdate p f store).1).isSome = true ↔ ∃ r ∈ store, p r = true := by
  induction store with
  | nil => simp [findOneAndUpdate]
  | cons a t ih =>
    by_cases h : p a
    · simp [findOneAndUpdate, h]
    · simp [findOneAndUpdate, h, ih]

theorem findOneAndUpdate_map_eq {β : Type} (p : ServiceRequest → Bool)
    (f : ServiceRequest → ServiceRequest) (g : ServiceRequest → β)
    (hg : ∀ r, g (f r) = g r) (store : List ServiceRequest) :
    (findOneAndUpdate p f store).2.map g = store.map g := by
  induction store with
  | nil => simp [findOneAndUpdate]
  | cons a t ih =>
    by_cases h : p a
    · simp [findOneAndUpdate, h, hg]
    · simp [findOneAndUpdate, h, ih]

theorem saveDoc_map_eq {β : Type} (g : ServiceRequest → β)
    (store : List ServiceRequest) (d r : ServiceRequest) (hr : r ∈ store)
    (hid : d.id = r.id) (hg : g d = g r)
    (hnd : (store.map (fun x => x.id)).Nodup) :
    (saveDoc store d).map g = store.map g := by
  induction store with
  | nil => simp at hr
  | cons a t ih =>
    simp only [List.map_cons, List.nodup_cons] at hnd
    rcases hnd with ⟨hnotin, hndt⟩
    rcases List.mem_cons.mp hr with rfl | hrt
    · rw [saveDoc, if_pos hid.symm]
      simp [hg]
    · have hne : ¬ (a.id = d.id) := by
        intro hEq
        exact hnotin (by rw [hEq, hid]; exact List.mem_map_of_mem _ hrt)
      rw [saveDoc, if_neg hne]
      simp [ih hrt hndt]

theorem mem_saveDoc_self (store : List ServiceRequest) (d : ServiceRequest)
    (hex : ∃ x ∈ store, x.id = d.id) : d ∈ saveDoc store d := by
  induction store with
  | nil => simp at hex
  | cons a t ih =>
    by_cases hEq : a.id = d.id
    · rw [saveDoc, if_pos hEq]
      exact List.mem_cons_self _ _
    · rw [saveDoc, if_neg hEq]
      rcases hex with ⟨x, hx, hxid⟩
      rcases List.mem_cons.mp hx with rfl | hxt
      · exact absurd hxid hEq
      · exact List.mem_cons_of_mem _ (ih ⟨x, hxt, hxid⟩)

theorem mem_saveDoc_elim (store : List ServiceRequest) (d : ServiceRequest)
    (hnd : (store.map (fun x => x.id)).Nodup) :
    ∀ y ∈ saveDoc store d, y = d ∨ (y ∈ store ∧ ¬ (y.id = d.id)) := by
  induction store with
  | nil => intro y hy; simp [saveDoc] at hy
  | cons a t ih =>
    simp only [List.map_cons, List.nodup_cons] at hnd
    rcases hnd with ⟨hnotin, hndt⟩
    intro y hy
    by_cases hEq : a.id = d.id
    · rw [saveDoc, if_pos hEq] at hy
      rcases List.mem_cons.mp hy with rfl | hyt
      · exact Or.inl rfl
      · refine Or.inr ⟨List.mem_cons_of_mem _ hyt, ?_⟩
        intro hyd
        exact hnotin (by rw [hEq, ← hyd]; exact List.mem_map_of_mem _ hyt)
    · rw [saveDoc, if_neg hEq] at hy
      rcases List.mem_cons.mp hy with rfl | hyt
      · exact Or.inr ⟨List.mem_cons_self _ _, hEq⟩
      · rcases ih hndt y hyt with h1 | ⟨h2, h3⟩
        · exact Or.inl h1
        · exact Or.inr ⟨List.mem_cons_of_mem _ h2, h3⟩

theorem updateServiceRequest_fst_eq_200_iff (store : List ServiceRequest)
    (i n : Nat) (e : String) (he : e = "aceptada" ∨ e = "rechazada") :
    (updateServiceRequest store i n e).1 = 200 ↔
      ∃ r ∈ store, r.id = i ∧ r.nurse_id = n := by
  have hcond : (e == "aceptada" || e == "rechazada") = true := by
    rcases he with h | h <;> simp [h]
  have hiff := findOneAndUpdate_fst_isSome_iff
    (fun r => r.id == i && r.nurse_id == n)
    (fun r => { r with estado := e }) store
  rcases hfo : findOneAndUpdate (fun r => r.id == i && r.nurse_id == n)
      (fun r => { r with estado := e }) store with ⟨o, s2⟩
  rw [hfo] at hiff
  cases o with
  | none =>
    simp only [Option.isSome_none, Bool.false_eq_true, false_iff] at hiff
    simp only [Bool.and_eq_true, beq_iff_eq] at hiff
    push_neg at hiff
    constructor
    · intro h200
      simp [updateServiceRequest, hcond, hfo] at h200
    · rintro ⟨r, hr, hid, hn⟩
      exact absurd hn (hiff r hr hid)
  | some r =>
    constructor
    · intro _
      simp only [Option.isSome_some, true_iff] at hiff
      simp only [Bool.and_eq_true, beq_iff_eq] at hiff
      rcases hiff with ⟨x, hx, hxi, hxn⟩
      exact ⟨x, hx, hxi, hxn⟩
    · intro _
      simp [updateServiceRequest, hcond, hfo]

theorem updateServiceRequest_partyView (store : List ServiceRequest)
    (i n : Nat) (e : String) :
    partyView (updateServiceRequest store i n e).2 = partyView store := by
  by_cases hcond : (e == "aceptada" || e == "rechazada") = true
  · have hmap := findOneAndUpdate_map_eq
      (fun r => r.id == i && r.nurse_id == n)
      (fun r => { r with estado := e })
      (fun r => (r.id, r.user_id, r.nurse_id)) (fun _ => rfl) store
    rcases hfo : findOneAndUpdate (fun r => r.id == i && r.nurse_id == n)
        (fun r => { r with estado := e }) store with ⟨o, s2⟩
    rw [hfo] at hmap
    cases o with
    | none => simp [updateServiceRequest, hcond, hfo, partyView]
    | some r => simpa [updateServiceRequest, hcond, hfo, partyView] using hmap
  · simp [updateServiceRequest, hcond, partyView]

/-- C1 (counterexample): the accept/reject route's conditional update is
not keyed on `state == pending` — starting from a pending request, an
accept and then a second accept/reject attempt by the assigned nurse
both answer 200; the second attempt does not fail with Conflict even
though the request is no longer pending. -/
theorem accept_twice_both_succeed :
    sreqPending.estado = "pendiente" ∧
    (updateServiceRequest [sreqPending] 1 5 "aceptada").1 = 200 ∧
    (updateServiceRequest (updateServiceRequest [sreqPending] 1 5 "aceptada").2
      1 5 "rechazada").1 = 200 := by
  decide

/-- C1 (amended): the accept/reject transition is a single conditional
update keyed on `(id, nurse_id)` only — there is no `state == pending`
clause — so it succeeds (200) whenever a request with that id assigned
to the calling nurse exists, whatever its state; consequently of two
accept/reject attempts on the same pending request both succeed, and
neither observes Conflict. -/
theorem acceptReject_keyed_on_id_and_nurse_only
    (store : List ServiceRequest) (i n : Nat) (e e2 : String)
    (he : e = "aceptada" ∨ e = "rechazada")
    (he2 : e2 = "aceptada" ∨ e2 = "rechazada")
    (r : ServiceRequest) (hr : r ∈ store) (hid : r.id = i) (hn : r.nurse_id = n) :
    (updateServiceRequest store i n e).1 = 200 ∧
    (updateServiceRequest (updateServiceRequest store i n e).2 i n e2).1 = 200 := by
  have h1 : (updateServiceRequest store i n e).1 = 200 :=
    (updateServiceRequest_fst_eq_200_iff store i n e he).mpr ⟨r, hr, hid, hn⟩
  refine ⟨h1, ?_⟩
  have hpv := updateServiceRequest_partyView store i n e
  have hmem : (i, r.user_id, n) ∈ partyView store := by
    simp only [partyView, List.mem_map]
    exact ⟨r, hr, by rw [hid, hn]⟩
  rw [← hpv] at hmem
  simp only [partyView, List.mem_map, Prod.mk.injEq] at hmem
  rcases hmem with ⟨r2, hr2, hr2i, _, hr2n⟩
  exact (updateServiceRequest_fst_eq_200_iff _ i n e2 he2).mpr ⟨r2, hr2, hr2i, hr2n⟩

/-- C1 (witness): on a concrete one-request pending store, the nurse's
accept succeeds and so does a second reject attempt. -/
theorem acceptReject_keyed_witness :
    (updateServiceRequest [sreqPending] 1 5 "aceptada").1 = 200 ∧
    (updateServiceRequest (updateServiceRequest [sreqPending] 1 5 "aceptada").2
      1 5 "rechazada").1 = 200 :=
  acceptReject_keyed_on_id_and_nurse_only [sreqPending] 1 5 "aceptada" "rechazada"
    (Or.inl rfl) (Or.inr rfl) sreqPending (List.mem_cons_self _ _) rfl rfl

/-- C2 (counterexample): on a request in state "aceptada" — the claim's
precondition — the complete transition by the assigned nurse answers 403
instead of succeeding, while on a request still in state "pendiente" it
answers 200: the source guard is `estado == 'pendiente'`, not
`'aceptada'`. -/
theorem completar_rejects_accepted_state :
    sreqAceptada.nurse_id = 5 ∧ sreqAceptada.estado = "aceptada" ∧
    (completarServiceRequest [sreqAceptada] 1 5 "notas").1 = 403 ∧
    (completarServiceRequest [sreqPending] 1 5 "notas").1 = 200 := by
  decide

/-- C2 (amended): the complete transition, invoked by the assigned
nurse, has precondition `state == pending` (not accepted); when it
succeeds, the same single update sets the state to "completado", sets
`pago_liberado` to true, and attaches the service documentation; when it
fails it answers 403 and leaves the store unchanged. -/
theorem completar_requires_pending_and_releases_payment
    (store : List ServiceRequest) (i n : Nat) (doc : String) :
    ((completarServiceRequest store i n doc).1 = 200 ↔
      ∃ r ∈ store, r.id = i ∧ r.nurse_id = n ∧ r.estado = "pendiente") ∧
    ((completarServiceRequest store i n doc).1 = 200 →
      ∃ r2 ∈ (completarServiceRequest store i n doc).2,
        r2.id = i ∧ r2.nurse_id = n ∧ r2.estado = "completado" ∧
        r2.pago_liberado = true ∧ r2.documentacion_servicio = some doc) ∧
    ((completarServiceRequest store i n doc).1 ≠ 200 →
      (completarServiceRequest store i n doc).1 = 403 ∧
      (completarServiceRequest store i n doc).2 = store) := by
  rcases hfo : store.find? (fun r => r.id == i && r.nurse_id == n &&
      r.estado == "pendiente") with _ | r
  · have hnone := List.find?_eq_none.mp hfo
    simp only [Bool.and_eq_true, beq_iff_eq, not_and] at hnone
    have hupd : completarServiceRequest store i n doc = (403, store) := by
      unfold completarServiceRequest
      rw [hfo]
    refine ⟨?_, ?_, ?_⟩
    · rw [hupd]
      constructor
      · intro h; simp at h
      · rintro ⟨x, hx, hxi, hxn, hxe⟩
        exact absurd hxe (hnone x hx ⟨hxi, hxn⟩)
    · intro h
      rw [hupd] at h
      simp at h
    · intro _
      rw [hupd]
      exact ⟨rfl, rfl⟩
  · have hmem := List.mem_of_find?_eq_some hfo
    have hp2 := List.find?_some hfo
    simp only [Bool.and_eq_true, beq_iff_eq] at hp2
    rcases hp2 with ⟨⟨hri, hrn⟩, hre⟩
    have hupd : completarServiceRequest store i n doc =
        (200, saveDoc store { r with
          estado := "completado",
          documentacion_servicio := some doc,
          pago_liberado := true }) := by
      unfold completarServiceRequest
      rw [hfo]
    refine ⟨?_, ?_, ?_⟩
    · rw [hupd]
      exact iff_of_true rfl ⟨r, hmem, hri, hrn, hre⟩
    · intro _
      refine ⟨{ r with
          estado := "completado",
          documentacion_servicio := some doc,
          pago_liberado := true }, ?_, hri, hrn, rfl, rfl, rfl⟩
      rw [hupd]
      exact mem_saveDoc_self store _ ⟨r, hmem, rfl⟩
    · intro h
      rw [hupd] at h
      exact absurd rfl h

/-- C2 (witness): on a concrete pending request the complete transition
succeeds. -/
theorem completar_requires_pending_witness :
    (completarServiceRequest [sreqPending] 1 5 "notas").1 = 200 :=
  (completar_requires_pending_and_releases_payment [sreqPending] 1 5 "notas").1.mpr
    ⟨sreqPending, List.mem_cons_self _ _, rfl, rfl, rfl⟩

/-- C3 (counterexample): `collect_payment` does not fail with Forbidden
when the state is "pendiente" — the source filter carries no `estado`
clause — so paying a still-pending request owned by the caller answers
200. -/
theorem pagar_succeeds_in_pending_state :
    sreqPending.estado = "pendiente" ∧ sreqPending.pago_realizado = false ∧
    (pagarServiceRequest [sreqPending] 1 7).1 = 200 := by
  decide

/-- C3 (amended): `collect_payment` succeeds exactly when a request with
the given id belongs to the caller and `pago_realizado` is still false —
regardless of the request's state, so also in state pending; when no
such request exists (wrong owner, unknown id, or already paid) it
answers 403 and leaves the store unchanged; a successful call sets
`pago_realizado` to true, records no Transaction (the handler never
touches the Transaction collection), and a second call on the
already-collected request fails with 403. -/
theorem pagar_ignores_estado_and_is_exactly_once
    (store : List ServiceRequest) (txs : List Transaction) (i u : Nat)
    (hnd : (store.map (fun x => x.id)).Nodup) :
    ((pagarApp store txs i u).1 = 200 ↔
      ∃ r ∈ store, r.id = i ∧ r.user_id = u ∧ r.pago_realizado = false) ∧
    ((pagarApp store txs i u).1 ≠ 200 →
      (pagarApp store txs i u).1 = 403 ∧ (pagarApp store txs i u).2.1 = store) ∧
    (pagarApp store txs i u).2.2 = txs ∧
    ((pagarApp store txs i u).1 = 200 →
      ∃ r2 ∈ (pagarApp store txs i u).2.1, r2.id = i ∧ r2.pago_realizado = true) ∧
    ((pagarApp store txs i u).1 = 200 →
      (pagarServiceRequest (pagarApp store txs i u).2.1 i u).1 = 403) := by
  rcases hfo : store.find? (fun x => x.id == i && x.user_id == u &&
      x.pago_realizado == false) with _ | r0
  · have hnone := List.find?_eq_none.mp hfo
    simp only [Bool.and_eq_true, beq_iff_eq, not_and] at hnone
    have hupd : pagarServiceRequest store i u = (403, store) := by
      unfold pagarServiceRequest
      rw [hfo]
    have hfst : (pagarApp store txs i u).1 = 403 := by
      simp only [pagarApp]
      rw [hupd]
    have hsnd : (pagarApp store txs i u).2.1 = store := by
      simp only [pagarApp]
      rw [hupd]
    refine ⟨?_, fun _ => ⟨hfst, hsnd⟩, rfl, ?_, ?_⟩
    · rw [hfst]
      constructor
      · intro h; simp at h
      · rintro ⟨x, hx, hxi, hxu, hxp⟩
        exact absurd hxp (hnone x hx ⟨hxi, hxu⟩)
    · intro h
      rw [hfst] at h
      simp at h
    · intro h
      rw [hfst] at h
      simp at h
  · have hmem0 := List.mem_of_find?_eq_some hfo
    have hp0 := List.find?_some hfo
    simp only [Bool.and_eq_true, beq_iff_eq] at hp0
    rcases hp0 with ⟨⟨h0i, h0u⟩, h0p⟩
    have hupd : pagarServiceRequest store i u =
        (200, saveDoc store { r0 with pago_realizado := true }) := by
      unfold pagarServiceRequest
      rw [hfo]
    have hfst : (pagarApp store txs i u).1 = 200 := by
      simp only [pagarApp]
      rw [hupd]
    have hsnd : (pagarApp store txs i u).2.1 =
        saveDoc store { r0 with pago_realizado := true } := by
      simp only [pagarApp]
      rw [hupd]
    have hnone2 : (saveDoc store { r0 with pago_realizado := true }).find?
        (fun x => x.id == i && x.user_id == u && x.pago_realizado == false) =
        none := by
      rw [List.find?_eq_none]
      intro y hy
      rcases mem_saveDoc_elim store _ hnd y hy with rfl | ⟨_, hyne⟩
      · simp
      · simp only [Bool.and_eq_true, beq_iff_eq, not_and]
        rintro ⟨hyi, _⟩
        exact absurd (by rw [hyi, h0i]) hyne
    refine ⟨?_, ?_, rfl, ?_, ?_⟩
    · rw [hfst]
      exact iff_of_true rfl ⟨r0, hmem0, h0i, h0u, h0p⟩
    · intro h
      exact absurd hfst h
    · intro _
      refine ⟨{ r0 with pago_realizado := true }, ?_, h0i, rfl⟩
      rw [hsnd]
      exact mem_saveDoc_self store _ ⟨r0, hmem0, rfl⟩
    · intro _
      rw [hsnd]
      unfold pagarServiceRequest
      rw [hnone2]

/-- C3 (witness): on a concrete accepted request owned by client 7, the
payment succeeds once and the second attempt answers 403; on the same
store a stranger client 9 is denied with 403 and changes nothing. -/
theorem pagar_exactly_once_witness :
    (pagarApp [sreqAceptada] [] 1 7).1 = 200 ∧
    (pagarServiceRequest (pagarApp [sreqAceptada] [] 1 7).2.1 1 7).1 = 403 ∧
    (pagarApp [sreqAceptada] [] 1 9).1 = 403 ∧
    (pagarApp [sreqAceptada] [] 1 9).2.1 = [sreqAceptada] :=
  ⟨(pagar_ignores_estado_and_is_exactly_once [sreqAceptada] [] 1 7
      (by decide)).1.mpr
    ⟨sreqAceptada, List.mem_cons_self _ _, rfl, rfl, rfl⟩,
   (pagar_ignores_estado_and_is_exactly_once [sreqAceptada] [] 1 7
      (by decide)).2.2.2.2
    ((pagar_ignores_estado_and_is_exactly_once [sreqAceptada] [] 1 7
        (by decide)).1.mpr
      ⟨sreqAceptada, List.mem_cons_self _ _, rfl, rfl, rfl⟩),
   ((pagar_ignores_estado_and_is_exactly_once [sreqAceptada] [] 1 9
      (by decide)).2.1 (by decide)).1,
   ((pagar_ignores_estado_and_is_exactly_once [sreqAceptada] [] 1 9
      (by decide)).2.1 (by decide)).2⟩

/-- C4 (counterexample): client 7 creates a request referencing patient
1, which is owned by user 42 — the ownership predicate is false — yet
the dispatched create handler answers 201 and the record is created (in
state "pendiente"): no Forbidden denial occurs. -/
theorem create_succeeds_without_patient_ownership :
    ownsAllPatients [{ id := 1, usuario_id := 42 }] [1] 7 = false ∧
    (createServiceRequest [] 10 7 5 [1] "dolor" 50).1 = 201 ∧
    (createServiceRequest [] 10 7 5 [1] "dolor" 50).2.1.estado = "pendiente" := by
  decide

/-- C4 (amended): the create operation that Express dispatches (the
first-registered `POST /service-requests` handler) performs no
patient-ownership check: it succeeds with 201 for every input, even when
the caller owns none of the referenced patients, and the new record is
appended with state "pendiente" and the caller as `user_id`.  (The
second-registered handler containing the ownership check is unreachable.) -/
theorem create_unchecked_pending (patients : List Patient)
    (store : List ServiceRequest) (newId u n : Nat) (pids : List Nat)
    (det : String) (tar : Int)
    (_hown : ownsAllPatients patients pids u = false) :
    (createServiceRequest store newId u n pids det tar).1 = 201 ∧
    (createServiceRequest store newId u n pids det tar).2.1.estado = "pendiente" ∧
    (createServiceRequest store newId u n pids det tar).2.1.user_id = u ∧
    (createServiceRequest store newId u n pids det tar).2.1.nurse_id = n ∧
    (createServiceRequest store newId u n pids det tar).2.1.patient_ids = pids ∧
    (createServiceRequest store newId u n pids det tar).2.2 =
      store ++ [(createServiceRequest store newId u n pids det tar).2.1] :=
  ⟨rfl, rfl, rfl, rfl, rfl, rfl⟩

/-- C4 (witness): the concrete non-owning creation of the
counterexample, routed through the amended theorem. -/
theorem create_unchecked_pending_witness :
    ownsAllPatients [{ id := 1, usuario_id := 42 }] [1] 7 = false ∧
    (createServiceRequest [] 10 7 5 [1] "dolor" 50).1 = 201 ∧
    (createServiceRequest [] 10 7 5 [1] "dolor" 50).2.1.estado = "pendiente" ∧
    (createServiceRequest [] 10 7 5 [1] "dolor" 50).2.1.user_id = 7 :=
  ⟨by decide,
   (create_unchecked_pending [{ id := 1, usuario_id := 42 }] [] 10 7 5 [1]
     "dolor" 50 (by decide)).1,
   (create_unchecked_pending [{ id := 1, usuario_id := 42 }] [] 10 7 5 [1]
     "dolor" 50 (by decide)).2.1,
   (create_unchecked_pending [{ id := 1, usuario_id := 42 }] [] 10 7 5 [1]
     "dolor" 50 (by decide)).2.2.1⟩

/-- C5 (counterexample): an expired — syntactically valid, correctly
signed — bearer token makes the auth guard answer 403, not the claimed
401: `jwt.verify` failures are mapped to `res.sendStatus(403)` by
middleware/auth.js, so the guard itself raises Forbidden. -/
theorem auth_expired_token_gets_403 :
    jwtVerify (generateToken ({ userId := 7, role := "usuario" } : LoginClaims) 0)
      jwtSecret 5000 = VerifyResult.expired ∧
    authenticateToken (some ["Bearer", "abc"])
      (fun _ => some (generateToken
        ({ userId := 7, role := "usuario" } : LoginClaims) 0)) 5000 =
      AuthOutcome.sendStatus 403 := by
  decide

/-- C5 (amended): the auth guard answers 401 only when no token can be
extracted from the Authorization header (header absent or second word
missing/empty); every token-level failure — unparseable token, wrong
signature, expired — is answered with 403, and only a valid unexpired
token lets the request proceed with the token's identity attached. -/
theorem auth_guard_status_partition {α : Type} (header : Option (List String))
    (decodeTok : String → Option (Jwt α)) (now : Nat) :
    (extractToken header = none →
      authenticateToken header decodeTok now = AuthOutcome.sendStatus 401) ∧
    (∀ s, extractToken header = some s → decodeTok s = none →
      authenticateToken header decodeTok now = AuthOutcome.sendStatus 403) ∧
    (∀ s t, extractToken header = some s → decodeTok s = some t →
      ¬ (t.sig = jwtSecret) →
      authenticateToken header decodeTok now = AuthOutcome.sendStatus 403) ∧
    (∀ s t, extractToken header = some s → decodeTok s = some t →
      t.sig = jwtSecret → t.payload.exp ≤ now →
      authenticateToken header decodeTok now = AuthOutcome.sendStatus 403) ∧
    (∀ s t, extractToken header = some s → decodeTok s = some t →
      t.sig = jwtSecret → now < t.payload.exp →
      authenticateToken header decodeTok now = AuthOutcome.next t.payload.userId) := by
  refine ⟨?_, ?_, ?_, ?_, ?_⟩
  · intro h
    unfold authenticateToken
    rw [h]
  · intro s h1 h2
    unfold authenticateToken
    rw [h1]
    simp [h2]
  · intro s t h1 h2 h3
    unfold authenticateToken
    rw [h1]
    simp [h2, jwtVerify, h3]
  · intro s t h1 h2 h3 h4
    unfold authenticateToken
    rw [h1]
    simp [h2, jwtVerify, h3, h4]
  · intro s t h1 h2 h3 h4
    unfold authenticateToken
    rw [h1]
    simp [h2, jwtVerify, h3, Nat.not_le.mpr h4]

/-- C5 (witness): with no Authorization header at all the guard answers
401. -/
theorem auth_guard_status_witness :
    authenticateToken (α := LoginClaims) none (fun _ => none) 0 =
      AuthOutcome.sendStatus 401 :=
  (auth_guard_status_partition none (fun _ => none) 0).1 rfl

/-- C6 (confirmed): a token issued for `(id, role)` carries
`exp = iat + 3600` (the fixed 1-hour window of `expiresIn: '1h'`);
verifying it any time strictly before expiry returns exactly the
`(id, role)` claims it was issued for, and verifying it once the window
has elapsed returns Expired. -/
theorem verify_issue_roundtrip_one_hour (id : Nat) (role : String) (t now : Nat) :
    (generateToken ({ userId := id, role := role } : LoginClaims) t).payload.exp =
      t + 3600 ∧
    (generateToken ({ userId := id, role := role } : LoginClaims) t).payload.iat =
      t ∧
    (now < t + 3600 →
      jwtVerify (generateToken ({ userId := id, role := role } : LoginClaims) t)
        jwtSecret now =
      VerifyResult.ok
        { userId := { userId := id, role := role }, iat := t, exp := t + 3600 }) ∧
    (t + 3600 ≤ now →
      jwtVerify (generateToken ({ userId := id, role := role } : LoginClaims) t)
        jwtSecret now = VerifyResult.expired) := by
  refine ⟨rfl, rfl, ?_, ?_⟩
  · intro h
    simp [jwtVerify, generateToken, Nat.not_le.mpr h]
  · intro h
    simp [jwtVerify, generateToken, h]

/-- C6 (witness): the round trip at concrete values — issued at 0 for
(7, usuario), valid at 10, expired at 3600. -/
theorem verify_issue_roundtrip_witness :
    jwtVerify (generateToken ({ userId := 7, role := "usuario" } : LoginClaims) 0)
      jwtSecret 10 =
      VerifyResult.ok
        { userId := { userId := 7, role := "usuario" }, iat := 0, exp := 3600 } ∧
    jwtVerify (generateToken ({ userId := 7, role := "usuario" } : LoginClaims) 0)
      jwtSecret 3600 = VerifyResult.expired :=
  ⟨(verify_issue_roundtrip_one_hour 7 "usuario" 0 10).2.2.1 (by decide),
   (verify_issue_roundtrip_one_hour 7 "usuario" 0 3600).2.2.2 (by decide)⟩

/-- C7 (counterexample): the signing secret is the string literal
embedded in middleware/auth.js; the secret the process uses is the same
with no configuration and with any configuration — its absence is not a
fatal startup error and issue/verify behaviour does not depend on any
externally supplied value. -/
theorem secret_is_hardcoded_literal :
    jwtSecret = "tu_secreto_jwt" ∧
    secretFromConfig none = "tu_secreto_jwt" ∧
    secretFromConfig (some "secreto_externo") = secretFromConfig none :=
  ⟨rfl, rfl, rfl⟩

/-- C7 (amended): the token-signing secret is the hardcoded literal of
middleware/auth.js: the secret in use is a constant function of the
external configuration (so it is trivially never mutated after load),
it equals the in-source literal, and tokens issued with it verify
successfully under any configuration, including none. -/
theorem secret_independent_of_config (cfg cfg2 : Option String)
    (c : LoginClaims) (t now : Nat) (h : now < t + 3600) :
    secretFromConfig cfg = secretFromConfig cfg2 ∧
    secretFromConfig cfg = jwtSecret ∧
    jwtVerify (generateToken c t) (secretFromConfig cfg) now =
      VerifyResult.ok { userId := c, iat := t, exp := t + 3600 } := by
  refine ⟨rfl, rfl, ?_⟩
  simp [jwtVerify, generateToken, secretFromConfig, jwtSecret, Nat.not_le.mpr h]

/-- C7 (witness): verification succeeds with no configuration at all. -/
theorem secret_independent_witness :
    jwtVerify (generateToken ({ userId := 7, role := "usuario" } : LoginClaims) 0)
      (secretFromConfig none) 10 =
      VerifyResult.ok
        { userId := { userId := 7, role := "usuario" }, iat := 0, exp := 3600 } :=
  (secret_independent_of_config none (some "secreto_externo")
    { userId := 7, role := "usuario" } 0 10 (by decide)).2.2

/-- C8 (counterexample): the request with id 1 exists (assigned to
nurse 5), yet when nurse 9 — who has no rights over it — attempts the
accept transition, the denial is surfaced as 404 NotFound, not
Forbidden: the route cannot distinguish a missing record from a filter
miss on `nurse_id`. -/
theorem acceptReject_denies_with_404 :
    sreqPending ∈ [sreqPending] ∧ sreqPending.id = 1 ∧ sreqPending.nurse_id ≠ 9 ∧
    (updateServiceRequest [sreqPending] 1 9 "aceptada").1 = 404 := by
  decide

/-- C8 (amended): denial of a non-participant is not uniformly
Forbidden: when the caller is neither the client nor the nurse of any
request with the targeted id, the accept/reject route answers 404
NotFound (even if the record exists), while the messages route answers
403 Forbidden. -/
theorem denial_statuses_per_route (store : List ServiceRequest)
    (msgs : List Message) (i uid rcv : Nat) (e content : String)
    (he : e = "aceptada" ∨ e = "rechazada")
    (hnp : ∀ r ∈ store, r.id = i →
      ¬ (r.user_id = uid) ∧ ¬ (r.nurse_id = uid)) :
    (updateServiceRequest store i uid e).1 = 404 ∧
    (sendMessage store msgs uid i rcv content).1 = 403 := by
  constructor
  · have hcond : (e == "aceptada" || e == "rechazada") = true := by
      rcases he with h | h <;> simp [h]
    have hiff := findOneAndUpdate_fst_isSome_iff
      (fun r => r.id == i && r.nurse_id == uid)
      (fun r => { r with estado := e }) store
    rcases hfo : findOneAndUpdate (fun r => r.id == i && r.nurse_id == uid)
        (fun r => { r with estado := e }) store with ⟨o, s2⟩
    rw [hfo] at hiff
    cases o with
    | none => simp [updateServiceRequest, hcond, hfo]
    | some r =>
      simp only [Option.isSome_some, true_iff] at hiff
      simp only [Bool.and_eq_true, beq_iff_eq] at hiff
      rcases hiff with ⟨x, hx, hxi, hxn⟩
      exact absurd hxn ((hnp x hx hxi).2)
  · have hnone : store.find? (fun r => r.id == i &&
        (r.user_id == uid || r.nurse_id == uid)) = none := by
      rw [List.find?_eq_none]
      intro x hx
      simp only [Bool.and_eq_true, Bool.or_eq_true, beq_iff_eq, not_and]
      rintro hxi (hxu | hxn)
      · exact (hnp x hx hxi).1 hxu
      · exact (hnp x hx hxi).2 hxn
    unfold sendMessage
    rw [hnone]

/-- C8 (witness): nurse 9, a stranger to the only request, gets 404
from accept/reject and 403 from messaging about the same record. -/
theorem denial_statuses_witness :
    (updateServiceRequest [sreqPending] 1 9 "aceptada").1 = 404 ∧
    (sendMessage [sreqPending] [] 9 1 7 "hola").1 = 403 :=
  denial_statuses_per_route [sreqPending] [] 1 9 7 "aceptada" "hola"
    (Or.inl rfl) (by decide)

/-- C9 (confirmed): every lifecycle mutation — accept/reject, collect
payment, complete, file report — preserves the id, `user_id` and
`nurse_id` of every document in the store: the party identifiers fixed
at creation are never rewritten (Mongo `_id` uniqueness is the Nodup
hypothesis). -/
theorem lifecycle_preserves_party_ids (store : List ServiceRequest)
    (hnd : (store.map (fun x => x.id)).Nodup)
    (i n u : Nat) (e doc obs rec : String) :
    partyView (updateServiceRequest store i n e).2 = partyView store ∧
    partyView (pagarServiceRequest store i u).2 = partyView store ∧
    partyView (completarServiceRequest store i n doc).2 = partyView store ∧
    partyView (reporteServiceRequest store i n obs rec).2 = partyView store := by
  refine ⟨updateServiceRequest_partyView store i n e, ?_, ?_, ?_⟩
  · rcases hfo : store.find? (fun x => x.id == i && x.user_id == u &&
        x.pago_realizado == false) with _ | r
    · unfold pagarServiceRequest
      rw [hfo]
    · have hmem := List.mem_of_find?_eq_some hfo
      unfold pagarServiceRequest
      rw [hfo]
      exact saveDoc_map_eq _ store _ r hmem rfl rfl hnd
  · rcases hfo : store.find? (fun x => x.id == i && x.nurse_id == n &&
        x.estado == "pendiente") with _ | r
    · unfold completarServiceRequest
      rw [hfo]
    · have hmem := List.mem_of_find?_eq_some hfo
      unfold completarServiceRequest
      rw [hfo]
      exact saveDoc_map_eq _ store _ r hmem rfl rfl hnd
  · rcases hfo : store.find? (fun x => x.id == i && x.nurse_id == n &&
        x.estado == "completado") with _ | r
    · unfold reporteServiceRequest
      rw [hfo]
    · have hmem := List.mem_of_find?_eq_some hfo
      unfold reporteServiceRequest
      rw [hfo]
      exact saveDoc_map_eq _ store _ r hmem rfl rfl hnd

/-- C9 (witness): on a concrete one-request store, the accept and the
payment both leave the (id, client, nurse) association untouched. -/
theorem lifecycle_preserves_party_ids_witness :
    ((([sreqPending].map (fun x => x.id))).Nodup) ∧
    partyView (updateServiceRequest [sreqPending] 1 5 "aceptada").2 =
      partyView [sreqPending] ∧
    partyView (pagarServiceRequest [sreqPending] 1 7).2 =
      partyView [sreqPending] :=
  ⟨by decide,
   (lifecycle_preserves_party_ids [sreqPending] (by decide) 1 5 7
     "aceptada" "notas" "obs" "rec").1,
   (lifecycle_preserves_party_ids [sreqPending] (by decide) 1 5 7
     "aceptada" "notas" "obs" "rec").2.1⟩

/-- C10 (confirmed): both logins authenticate by exact plaintext
equality — they succeed (200) exactly when a stored record's
`user_name` and `password` both equal the submitted strings, otherwise
they answer 401; on success they issue a token whose claims carry the
fixed role tag.  The outcome is a Lean function of the store and the
submitted pair, hence deterministic. -/
theorem login_plaintext_equality (users : List UserRec)
    (nurses : List NurseRec) (uName pw : String) (now : Nat) :
    ((loginUser users uName pw now).1 = 200 ↔
      ∃ rec ∈ users, rec.user_name = uName ∧ rec.password = pw) ∧
    ((loginUser users uName pw now).1 = 200 ∨
      (loginUser users uName pw now).1 = 401) ∧
    ((loginUser users uName pw now).1 = 200 →
      ∃ tok, (loginUser users uName pw now).2 = some tok ∧
        tok.payload.userId.role = "usuario") ∧
    ((loginNurse nurses uName pw now).1 = 200 ↔
      ∃ rec ∈ nurses, rec.user_name = uName ∧ rec.password = pw) ∧
    ((loginNurse nurses uName pw now).1 = 200 →
      ∃ tok, (loginNurse nurses uName pw now).2 = some tok ∧
        tok.payload.userId.role = "enfermero") := by
  have hUser : ((loginUser users uName pw now).1 = 200 ↔
      ∃ rec ∈ users, rec.user_name = uName ∧ rec.password = pw) ∧
      ((loginUser users uName pw now).1 = 200 ∨
        (loginUser users uName pw now).1 = 401) ∧
      ((loginUser users uName pw now).1 = 200 →
        ∃ tok, (loginUser users uName pw now).2 = some tok ∧
          tok.payload.userId.role = "usuario") := by
    rcases hfo : users.find? (fun x => x.user_name == uName && x.password == pw)
      with _ | urec
    · have hnone := List.find?_eq_none.mp hfo
      simp only [Bool.and_eq_true, beq_iff_eq, not_and] at hnone
      have heq : loginUser users uName pw now = (401, none) := by
        unfold loginUser
        rw [hfo]
      rw [heq]
      refine ⟨?_, Or.inr rfl, ?_⟩
      · constructor
        · intro h; simp at h
        · rintro ⟨x, hx, hxu, hxp⟩
          exact absurd hxp (hnone x hx hxu)
      · intro h; simp at h
    · have hmem := List.mem_of_find?_eq_some hfo
      have hp2 := List.find?_some hfo
      simp only [Bool.and_eq_true, beq_iff_eq] at hp2
      have heq : loginUser users uName pw now =
          (200, some (generateToken
            { userId := urec.id, role := "usuario" } now)) := by
        unfold loginUser
        rw [hfo]
      rw [heq]
      exact ⟨iff_of_true rfl ⟨urec, hmem, hp2.1, hp2.2⟩, Or.inl rfl,
        fun _ => ⟨_, rfl, rfl⟩⟩
  have hNurse : ((loginNurse nurses uName pw now).1 = 200 ↔
      ∃ rec ∈ nurses, rec.user_name = uName ∧ rec.password = pw) ∧
      ((loginNurse nurses uName pw now).1 = 200 →
        ∃ tok, (loginNurse nurses uName pw now).2 = some tok ∧
          tok.payload.userId.role = "enfermero") := by
    rcases hfo : nurses.find? (fun x => x.user_name == uName && x.password == pw)
      with _ | nrec
    · have hnone := List.find?_eq_none.mp hfo
      simp only [Bool.and_eq_true, beq_iff_eq, not_and] at hnone
      have heq : loginNurse nurses uName pw now = (401, none) := by
        unfold loginNurse
        rw [hfo]
      rw [heq]
      refine ⟨?_, ?_⟩
      · constructor
        · intro h; simp at h
        · rintro ⟨x, hx, hxu, hxp⟩
          exact absurd hxp (hnone x hx hxu)
      · intro h; simp at h
    · have hmem := List.mem_of_find?_eq_some hfo
      have hp2 := List.find?_some hfo
      simp only [Bool.and_eq_true, beq_iff_eq] at hp2
      have heq : loginNurse nurses uName pw now =
          (200, some (generateToken
            { userId := nrec.id, role := "enfermero" } now)) := by
        unfold loginNurse
        rw [hfo]
      rw [heq]
      exact ⟨iff_of_true rfl ⟨nrec, hmem, hp2.1, hp2.2⟩,
        fun _ => ⟨_, rfl, rfl⟩⟩
  exact ⟨hUser.1, hUser.2.1, hUser.2.2, hNurse.1, hNurse.2⟩

/-- C10 (witness): with stored credentials (ana, clave123) the user
login succeeds, and with no matching nurse record the nurse login does
not. -/
theorem login_plaintext_equality_witness :
    (loginUser [{ id := 1, user_name := "ana", password := "clave123" }]
      "ana" "clave123" 0).1 = 200 ∧
    ¬ ((loginNurse ([] : List NurseRec) "ana" "clave123" 0).1 = 200) :=
  ⟨(login_plaintext_equality
      [{ id := 1, user_name := "ana", password := "clave123" }] [] "ana"
      "clave123" 0).1.mpr
    ⟨{ id := 1, user_name := "ana", password := "clave123" },
      List.mem_cons_self _ _, rfl, rfl⟩,
   fun h => by
    rcases (login_plaintext_equality
        [{ id := 1, user_name := "ana", password := "clave123" }] [] "ana"
        "clave123" 0).2.2.2.1.mp h with ⟨x, hx, _⟩
    simp at hx⟩

end Ap
